import Mathlib

/-!
Shallow embedding of `network-grpc/src/client.rs`: the gRPC client adapter
layer bridging a transport-level request/response/stream API and the
domain-level block/header service interface.

Modelling conventions:
- Rust futures-0.1 polling (`poll(&mut self) -> Poll<T, E>`) is embedded as
  explicit state passing: an underlying future is a state type `σ` together
  with a step function `σ → σ × Poll ρ χ`; an underlying stream likewise
  with `StreamPoll`.
- A Rust panic (`panic!` in a finished adapter, `unwrap` on a failed
  serialization, `unimplemented!`) is a distinct constructor (`Panicked`)
  or `Option.none`, never a default value.
- Byte buffers are `List Nat`; type-class dictionaries (`Serialize`,
  `Deserialize`, `FromStr`, `ConvertResponse`) are explicit structures or
  function parameters.
-/

/-- `core_client::ErrorKind`: the domain error taxonomy for established
calls, `Rpc` for transport failures, `Format` for payload parse failures. -/
inductive ErrorKind : Type where
  | Rpc : ErrorKind
  | Format : ErrorKind
deriving DecidableEq

/-- `core_client::Error`: a domain error tagged with its kind and carrying
the underlying cause (Rust boxes the cause; here its type is a parameter). -/
structure CoreError (χ : Type) : Type where
  kind : ErrorKind
  cause : χ
deriving DecidableEq

/-- `core_client::Error::new(kind, e)`. -/
def CoreError.new {χ : Type} (k : ErrorKind) (e : χ) : CoreError χ :=
  { kind := k, cause := e }

/-- `convert_error` (client.rs lines 96-101): wraps a transport error as a
domain error of kind `Rpc`. -/
def convert_error {χ : Type} (e : χ) : CoreError χ :=
  CoreError.new ErrorKind.Rpc e

/-- Dictionary for `chain_core::property::Deserialize`: bytes to a domain
value or a deserialization error. -/
structure DeserializeImpl (τ ε : Type) : Type where
  deserialize : List Nat → Except ε τ

/-- Dictionary for `chain_core::property::Serialize`: a domain value to its
byte serialization or a serialization error. -/
structure SerializeImpl (τ ε : Type) : Type where
  serialize : τ → Except ε (List Nat)

/-- Dictionary for `std::str::FromStr`: a textual representation to a domain
value or a parse error. -/
structure FromStrImpl (τ ε : Type) : Type where
  from_str : String → Except ε τ

/-- `deserialize_bytes` (client.rs lines 251-257): deserialize a byte buffer,
mapping a failure to a domain error of kind `Format` carrying the cause. -/
def deserialize_bytes {τ ε : Type} (d : DeserializeImpl τ ε) (buf : List Nat) :
    Except (CoreError ε) τ :=
  match d.deserialize buf with
  | Except.ok t => Except.ok t
  | Except.error e => Except.error (CoreError.new ErrorKind.Format e)

/-- `parse_str` (client.rs lines 259-265): parse a string, mapping a failure
to a domain error of kind `Format` carrying the cause. -/
def parse_str {τ ε : Type} (p : FromStrImpl τ ε) (s : String) :
    Except (CoreError ε) τ :=
  match p.from_str s with
  | Except.ok t => Except.ok t
  | Except.error e => Except.error (CoreError.new ErrorKind.Format e)

/-- `serialize_to_vec` (client.rs lines 267-279): serialize each value into
its own byte vector. The Rust code calls `unwrap` on each serialization, so
a failing serialization aborts (modelled as `none`) instead of returning an
error. -/
def serialize_to_vec {τ ε : Type} (sz : SerializeImpl τ ε) :
    List τ → Option (List (List Nat))
  | [] => some []
  | x :: xs =>
    match sz.serialize x with
    | Except.error _ => none
    | Except.ok v =>
      match serialize_to_vec sz xs with
      | none => none
      | some vs => some (v :: vs)

/-- Wire message `gen::node::TipResponse`: raw identifier bytes and a
textual block date. -/
structure TipResponse : Type where
  id : List Nat
  blockdate : String
deriving DecidableEq

/-- Wire message `gen::node::Block`: raw content bytes. -/
structure GenBlock : Type where
  content : List Nat
deriving DecidableEq

/-- Wire message `gen::node::Header`: raw content bytes. -/
structure GenHeader : Type where
  content : List Nat
deriving DecidableEq

/-- Wire message `gen::node::PullBlocksToTipRequest`: an ordered list of
serialized identifiers. -/
structure PullBlocksToTipRequest : Type where
  «from» : List (List Nat)
deriving DecidableEq

/-- `ConvertResponse<(I, D)> for TipResponse` (client.rs lines 281-293):
deserialize the id bytes, then parse the date string; the first failing
sub-step short-circuits via `?`. -/
def TipResponse.convert_response {ι δ χ : Type} (dI : DeserializeImpl ι χ)
    (dD : FromStrImpl δ χ) (r : TipResponse) : Except (CoreError χ) (ι × δ) :=
  match deserialize_bytes dI r.id with
  | Except.error e => Except.error e
  | Except.ok i =>
    match parse_str dD r.blockdate with
    | Except.error e => Except.error e
    | Except.ok d => Except.ok (i, d)

/-- `ConvertResponse<T> for gen::node::Block` (client.rs lines 295-304):
deserialize the content bytes. -/
def GenBlock.convert_response {τ χ : Type} (d : DeserializeImpl τ χ)
    (b : GenBlock) : Except (CoreError χ) τ :=
  match deserialize_bytes d b.content with
  | Except.error e => Except.error e
  | Except.ok t => Except.ok t

/-- `ConvertResponse<T> for gen::node::Header` (client.rs lines 306-315):
deserialize the content bytes. -/
def GenHeader.convert_response {τ χ : Type} (d : DeserializeImpl τ χ)
    (h : GenHeader) : Except (CoreError χ) τ :=
  match deserialize_bytes d h.content with
  | Except.error e => Except.error e
  | Except.ok t => Except.ok t

/-- futures-0.1 `Poll<T, E>` (`Result<Async<T>, E>`) for a future. -/
inductive Poll (ρ χ : Type) : Type where
  | NotReady : Poll ρ χ
  | Ready : ρ → Poll ρ χ
  | Err : χ → Poll ρ χ
deriving DecidableEq

/-- futures-0.1 `Poll<Option<T>, E>` for a stream: `EndOfStream` is
`Ready(None)`, `Ready t` is `Ready(Some(t))`. -/
inductive StreamPoll (ρ χ : Type) : Type where
  | NotReady : StreamPoll ρ χ
  | EndOfStream : StreamPoll ρ χ
  | Ready : ρ → StreamPoll ρ χ
  | Err : χ → StreamPoll ρ χ
deriving DecidableEq

/-- Outcome of polling an adapter future: a futures-0.1 poll result over the
domain error type, extended with `Panicked` for the abort on polling a
finished adapter. -/
inductive PollRes (τ χ : Type) : Type where
  | NotReady : PollRes τ χ
  | Ready : τ → PollRes τ χ
  | Err : CoreError χ → PollRes τ χ
  | Panicked : PollRes τ χ
deriving DecidableEq

/-- Outcome of polling the item stream adapter, extended with `Panicked`
(which the adapter never produces: its code contains no abort). -/
inductive StreamPollRes (τ χ : Type) : Type where
  | NotReady : StreamPollRes τ χ
  | EndOfStream : StreamPollRes τ χ
  | Ready : τ → StreamPollRes τ χ
  | Err : CoreError χ → StreamPollRes τ χ
  | Panicked : StreamPollRes τ χ
deriving DecidableEq

namespace unary_future

/-- `unary_future::State` (client.rs lines 130-133): the unary adapter is
`Pending` around the in-flight wire future or `Finished`. -/
inductive State (σ : Type) : Type where
  | Pending : σ → State σ
  | Finished : State σ
deriving DecidableEq

/-- `unary_future::poll_and_convert_response` (client.rs lines 115-128):
poll the wire future; on a response, convert it (`?` propagates the
conversion error); on a transport error, wrap it via `convert_error`. -/
def poll_and_convert_response {σ ρ τ χ : Type} (pollF : σ → σ × Poll ρ χ)
    (conv : ρ → Except (CoreError χ) τ) (f : σ) : σ × Poll τ (CoreError χ) :=
  match pollF f with
  | (f2, Poll.NotReady) => (f2, Poll.NotReady)
  | (f2, Poll.Ready res) =>
    match conv res with
    | Except.ok item => (f2, Poll.Ready item)
    | Except.error e => (f2, Poll.Err e)
  | (f2, Poll.Err e) => (f2, Poll.Err (convert_error e))

end unary_future

/-- `Future for ResponseFuture::poll` (client.rs lines 142-156): when
`Pending`, poll-and-convert; not-ready keeps the (advanced) pending future;
a terminal outcome sets `Finished` and returns it; polling a `Finished`
adapter aborts. -/
def ResponseFuture.poll {σ ρ τ χ : Type} (pollF : σ → σ × Poll ρ χ)
    (conv : ρ → Except (CoreError χ) τ) :
    unary_future.State σ → unary_future.State σ × PollRes τ χ
  | unary_future.State.Pending f =>
    match unary_future.poll_and_convert_response pollF conv f with
    | (f2, Poll.NotReady) => (unary_future.State.Pending f2, PollRes.NotReady)
    | (_, Poll.Ready t) => (unary_future.State.Finished, PollRes.Ready t)
    | (_, Poll.Err e) => (unary_future.State.Finished, PollRes.Err e)
  | unary_future.State.Finished =>
    (unary_future.State.Finished, PollRes.Panicked)

/-- `ResponseStream` (client.rs lines 91-94): wraps the transport message
stream; the `PhantomData` type marker is omitted. It has no state of its
own beyond the wrapped stream. -/
structure ResponseStream (σs : Type) : Type where
  inner : σs
deriving DecidableEq

namespace stream_future

/-- `stream_future::State` (client.rs lines 188-191): same two-state shape
as the unary adapter. -/
inductive State (σ : Type) : Type where
  | Pending : σ → State σ
  | Finished : State σ
deriving DecidableEq

/-- `stream_future::poll_and_convert_response` (client.rs lines 169-186):
poll the wire handshake future; on a response, wrap its stream in a
`ResponseStream`; on a transport error, wrap it via `convert_error`. -/
def poll_and_convert_response {σ σs χ : Type} (pollF : σ → σ × Poll σs χ)
    (f : σ) : σ × Poll (ResponseStream σs) (CoreError χ) :=
  match pollF f with
  | (f2, Poll.NotReady) => (f2, Poll.NotReady)
  | (f2, Poll.Ready res) => (f2, Poll.Ready { inner := res })
  | (f2, Poll.Err e) => (f2, Poll.Err (convert_error e))

end stream_future

/-- `Future for ResponseStreamFuture::poll` (client.rs lines 200-214): same
single-transition shape as the unary adapter, with a stream handle as the
success value. -/
def ResponseStreamFuture.poll {σ σs χ : Type} (pollF : σ → σ × Poll σs χ) :
    stream_future.State σ → stream_future.State σ × PollRes (ResponseStream σs) χ
  | stream_future.State.Pending f =>
    match stream_future.poll_and_convert_response pollF f with
    | (f2, Poll.NotReady) => (stream_future.State.Pending f2, PollRes.NotReady)
    | (_, Poll.Ready s) => (stream_future.State.Finished, PollRes.Ready s)
    | (_, Poll.Err e) => (stream_future.State.Finished, PollRes.Err e)
  | stream_future.State.Finished =>
    (stream_future.State.Finished, PollRes.Panicked)

/-- `stream::poll_and_convert_item` (client.rs lines 222-236): poll the
wrapped transport stream once; convert a yielded item (`?` propagates the
conversion error); wrap a transport error via `convert_error`. -/
def poll_and_convert_item {σs ρ τ χ : Type} (pollS : σs → σs × StreamPoll ρ χ)
    (conv : ρ → Except (CoreError χ) τ) (s : σs) : σs × StreamPoll τ (CoreError χ) :=
  match pollS s with
  | (s2, StreamPoll.NotReady) => (s2, StreamPoll.NotReady)
  | (s2, StreamPoll.EndOfStream) => (s2, StreamPoll.EndOfStream)
  | (s2, StreamPoll.Ready item) =>
    match conv item with
    | Except.ok t => (s2, StreamPoll.Ready t)
    | Except.error e => (s2, StreamPoll.Err e)
  | (s2, StreamPoll.Err e) => (s2, StreamPoll.Err (convert_error e))

/-- `Stream for ResponseStream::poll` (client.rs lines 245-247): forwards
every poll directly to `poll_and_convert_item` on the wrapped stream; the
result type is lifted into `StreamPollRes` (whose `Panicked` constructor is
never produced: the code contains no abort and keeps no completion state). -/
def ResponseStream.poll {σs ρ τ χ : Type} (pollS : σs → σs × StreamPoll ρ χ)
    (conv : ρ → Except (CoreError χ) τ) (rs : ResponseStream σs) :
    ResponseStream σs × StreamPollRes τ χ :=
  match poll_and_convert_item pollS conv rs.inner with
  | (s2, StreamPoll.NotReady) => ({ inner := s2 }, StreamPollRes.NotReady)
  | (s2, StreamPoll.EndOfStream) => ({ inner := s2 }, StreamPollRes.EndOfStream)
  | (s2, StreamPoll.Ready t) => ({ inner := s2 }, StreamPollRes.Ready t)
  | (s2, StreamPoll.Err e) => ({ inner := s2 }, StreamPollRes.Err e)

/-- `gen_client::Node` handle around a connection. -/
structure Node (κ : Type) : Type where
  conn : κ
deriving DecidableEq

/-- `gen_client::Node::new`. -/
def Node.new {κ : Type} (conn : κ) : Node κ :=
  { conn := conn }

/-- `Client` (client.rs lines 27-29): owns the node handle over the
established connection. -/
structure Client (κ : Type) : Type where
  node : Node κ
deriving DecidableEq

/-- `Error` (client.rs lines 366-370): the connect-phase error taxonomy;
its only variant wraps the underlying transport-connect failure. -/
inductive Error (γ : Type) : Type where
  | Connect : γ → Error γ
deriving DecidableEq

/-- One poll of the future returned by `Client::connect` (client.rs lines
36-51): `make_service(())` mapped by `Error::Connect` on the error side and
by `Client { node: Node::new(conn) }` on the success side. -/
def Client.connect_poll {σ κ γ : Type} (pollM : σ → σ × Poll κ γ) (s : σ) :
    σ × Poll (Client κ) (Error γ) :=
  match pollM s with
  | (s2, Poll.NotReady) => (s2, Poll.NotReady)
  | (s2, Poll.Ready conn) => (s2, Poll.Ready { node := Node.new conn })
  | (s2, Poll.Err e) => (s2, Poll.Err (Error.Connect e))

/-- `BlockService::pull_blocks_to_tip` (client.rs lines 341-346), request
construction: serialize the identifiers and build the request. A failing
serialization aborts inside `serialize_to_vec` (`unwrap`), so the request
is `none` in that case. The wrapping of the transport call's future in a
`ResponseStreamFuture` is covered by the adapter definitions above. -/
def pull_blocks_to_tip {τ ε : Type} (sz : SerializeImpl τ ε) (ids : List τ) :
    Option PullBlocksToTipRequest :=
  match serialize_to_vec sz ids with
  | none => none
  | some v => some { «from» := v }

/-- Result of calling a client method: either a returned value or an abort
raised during the call itself. -/
inductive CallResult (α : Type) : Type where
  | Ret : α → CallResult α
  | Panicked : CallResult α
deriving DecidableEq

/-- `HeaderService::tip_header` (client.rs lines 361-363): the body is
`unimplemented!()`, an unconditional abort; no future is ever returned. -/
def tip_header (σ : Type) : CallResult (unary_future.State σ) :=
  CallResult.Panicked

/-- Trace of the items the underlying transport stream yields over `n`
polls, in delivery order. -/
def runUnderlying {σs ρ χ : Type} (pollS : σs → σs × StreamPoll ρ χ) :
    Nat → σs → List ρ
  | 0, _ => []
  | n + 1, s =>
    match pollS s with
    | (s2, StreamPoll.Ready item) => item :: runUnderlying pollS n s2
    | (s2, StreamPoll.NotReady) => runUnderlying pollS n s2
    | (s2, StreamPoll.EndOfStream) => runUnderlying pollS n s2
    | (s2, StreamPoll.Err _) => runUnderlying pollS n s2

/-- Trace of the domain items the stream adapter yields over `n` polls, in
delivery order. -/
def runStream {σs ρ τ χ : Type} (pollS : σs → σs × StreamPoll ρ χ)
    (conv : ρ → Except (CoreError χ) τ) :
    Nat → ResponseStream σs → List τ
  | 0, _ => []
  | n + 1, rs =>
    match ResponseStream.poll pollS conv rs with
    | (rs2, StreamPollRes.Ready t) => t :: runStream pollS conv n rs2
    | (rs2, StreamPollRes.NotReady) => runStream pollS conv n rs2
    | (rs2, StreamPollRes.EndOfStream) => runStream pollS conv n rs2
    | (rs2, StreamPollRes.Err _) => runStream pollS conv n rs2
    | (rs2, StreamPollRes.Panicked) => runStream pollS conv n rs2

/-- Concrete serializer for witnesses: one byte per number. -/
def natSerialize : SerializeImpl Nat Unit :=
  { serialize := fun n => Except.ok [n % 256] }

/-- Concrete always-failing serializer for witnesses. -/
def failSerialize : SerializeImpl Nat Unit :=
  { serialize := fun _ => Except.error () }

/-- Concrete two-byte big-endian identifier deserializer for witnesses. -/
def natPairDeserialize : DeserializeImpl Nat Unit :=
  { deserialize := fun bs =>
      match bs with
      | [a, b] => Except.ok (a * 256 + b)
      | _ => Except.error () }

/-- Concrete one-byte deserializer for witnesses: accepts exactly a
singleton buffer. -/
def singletonDeserialize : DeserializeImpl Nat Unit :=
  { deserialize := fun bs =>
      match bs with
      | [a] => Except.ok a
      | _ => Except.error () }

/-- Concrete date parser for witnesses: rejects the empty string. -/
def nonEmptyFromStr : FromStrImpl String Unit :=
  { from_str := fun s => if s = "" then Except.error () else Except.ok s }

/-- Concrete transport stream for witnesses: first poll yields a malformed
block (empty content), every later poll yields a well-formed block `[9]`. -/
def exampleStream (n : Nat) : Nat × StreamPoll GenBlock Unit :=
  (n + 1,
    if n = 0 then StreamPoll.Ready { content := [] }
    else StreamPoll.Ready { content := [9] })

/-- Concrete wire future for witnesses: always fails with a transport
error. -/
def exampleFailedCall (n : Nat) : Nat × Poll GenBlock Unit :=
  (n + 1, Poll.Err ())

/-- Concrete stream-handshake future for witnesses: never ready. -/
def examplePollG (n : Nat) : Nat × Poll Nat Unit :=
  (n + 1, Poll.NotReady)

/-- Concrete connect future for witnesses: immediately ready with
connection handle `42`. -/
def exampleConnect (s : Nat) : Nat × Poll Nat Unit :=
  (s + 1, Poll.Ready 42)

/-- Helper: a successful `serialize_to_vec` has one byte vector per input
value, in order, each the exact serialization of its value. -/
theorem serialize_to_vec_spec {τ ε : Type} (sz : SerializeImpl τ ε) :
    ∀ (L : List τ) (bs : List (List Nat)), serialize_to_vec sz L = some bs →
      bs.length = L.length ∧
      ∀ (i : Nat) (x : τ) (b : List Nat), L[i]? = some x → bs[i]? = some b →
        sz.serialize x = Except.ok b := by
  intro L
  induction L with
  | nil =>
    intro bs h
    simp only [serialize_to_vec, Option.some.injEq] at h
    subst h
    refine ⟨rfl, ?_⟩
    intro i x b hx _
    simp at hx
  | cons y ys ih =>
    intro bs h
    simp only [serialize_to_vec] at h
    cases hy : sz.serialize y with
    | error e => rw [hy] at h; simp at h
    | ok v =>
      rw [hy] at h
      cases hr : serialize_to_vec sz ys with
      | none => rw [hr] at h; simp at h
      | some vs =>
        rw [hr] at h
        simp only [Option.some.injEq] at h
        subst h
        obtain ⟨hlen, hidx⟩ := ih vs hr
        refine ⟨by simp [hlen], ?_⟩
        intro i x b hx hb
        cases i with
        | zero =>
          simp only [List.getElem?_cons_zero, Option.some.injEq] at hx hb
          subst hx; subst hb
          exact hy
        | succ j =>
          simp only [List.getElem?_cons_succ] at hx hb
          exact hidx j x b hx hb

/-- Helper: `serialize_to_vec` aborts exactly when some input value fails to
serialize. -/
theorem serialize_to_vec_none_iff {τ ε : Type} (sz : SerializeImpl τ ε) :
    ∀ L : List τ,
      serialize_to_vec sz L = none ↔ ∃ x ∈ L, ∃ e, sz.serialize x = Except.error e := by
  intro L
  induction L with
  | nil => simp [serialize_to_vec]
  | cons y ys ih =>
    simp only [serialize_to_vec]
    cases hy : sz.serialize y with
    | error e =>
      simp only [List.mem_cons]
      constructor
      · intro _
        exact ⟨y, Or.inl rfl, e, hy⟩
      · intro _
        trivial
    | ok v =>
      cases hr : serialize_to_vec sz ys with
      | none =>
        simp only [List.mem_cons]
        constructor
        · intro _
          obtain ⟨x, hxm, e, he⟩ := ih.mp hr
          exact ⟨x, Or.inr hxm, e, he⟩
        · intro _
          trivial
      | some vs =>
        simp only [List.mem_cons]
        constructor
        · intro h
          simp at h
        · intro hex
          obtain ⟨x, hxm, e, he⟩ := hex
          cases hxm with
          | inl hxy =>
            subst hxy
            rw [hy] at he
            simp at he
          | inr hxm =>
            have : serialize_to_vec sz ys = none := ih.mpr ⟨x, hxm, e, he⟩
            rw [hr] at this
            simp at this

/-- Helper: over any number of polls, the items the stream adapter yields
are exactly the successfully converted items of the underlying transport
stream, in delivery order. -/
theorem runStream_eq_filterMap {σs ρ τ χ : Type} (pollS : σs → σs × StreamPoll ρ χ)
    (conv : ρ → Except (CoreError χ) τ) :
    ∀ (n : Nat) (rs : ResponseStream σs),
      runStream pollS conv n rs =
        List.filterMap (fun item => (conv item).toOption)
          (runUnderlying pollS n rs.inner) := by
  intro n
  induction n with
  | zero => intro rs; rfl
  | succ m ih =>
    intro rs
    rcases hp : pollS rs.inner with ⟨s2, r⟩
    cases r with
    | NotReady =>
      simp only [runStream, runUnderlying, ResponseStream.poll,
        poll_and_convert_item, hp]
      exact ih ⟨s2⟩
    | EndOfStream =>
      simp only [runStream, runUnderlying, ResponseStream.poll,
        poll_and_convert_item, hp]
      exact ih ⟨s2⟩
    | Ready item =>
      cases hc : conv item with
      | ok t =>
        simp only [runStream, runUnderlying, ResponseStream.poll,
          poll_and_convert_item, hp, hc, List.filterMap_cons, Except.toOption]
        exact congrArg (t :: ·) (ih ⟨s2⟩)
      | error e =>
        simp only [runStream, runUnderlying, ResponseStream.poll,
          poll_and_convert_item, hp, hc, List.filterMap_cons, Except.toOption]
        exact ih ⟨s2⟩
    | Err e =>
      simp only [runStream, runUnderlying, ResponseStream.poll,
        poll_and_convert_item, hp]
      exact ih ⟨s2⟩

/-- Claim C1: for every unary ResponseFuture and every ResponseStreamFuture,
a poll in the `Pending` state either returns not-ready and leaves the state
`Pending` (holding the advanced wire future), or yields a terminal outcome
(a converted value, a stream handle, or an error) and transitions to
`Finished` — so the transition happens at most once, on the first poll with
a terminal outcome — and every poll in the `Finished` state panics instead
of returning a second result. -/
theorem c1_adapters_transition_once {σ σ2 σs ρ τ χ : Type}
    (pollF : σ → σ × Poll ρ χ) (conv : ρ → Except (CoreError χ) τ)
    (pollG : σ2 → σ2 × Poll σs χ) :
    (∀ f : σ,
      ResponseFuture.poll pollF conv (unary_future.State.Pending f) =
          (unary_future.State.Pending (pollF f).1, PollRes.NotReady) ∨
      (∃ t, ResponseFuture.poll pollF conv (unary_future.State.Pending f) =
          (unary_future.State.Finished, PollRes.Ready t)) ∨
      (∃ e, ResponseFuture.poll pollF conv (unary_future.State.Pending f) =
          (unary_future.State.Finished, PollRes.Err e))) ∧
    ResponseFuture.poll pollF conv unary_future.State.Finished =
      (unary_future.State.Finished, PollRes.Panicked) ∧
    (∀ g : σ2,
      ResponseStreamFuture.poll pollG (stream_future.State.Pending g) =
          (stream_future.State.Pending (pollG g).1, PollRes.NotReady) ∨
      (∃ st, ResponseStreamFuture.poll pollG (stream_future.State.Pending g) =
          (stream_future.State.Finished, PollRes.Ready st)) ∨
      (∃ e, ResponseStreamFuture.poll pollG (stream_future.State.Pending g) =
          (stream_future.State.Finished, PollRes.Err e))) ∧
    ResponseStreamFuture.poll pollG stream_future.State.Finished =
      (stream_future.State.Finished, PollRes.Panicked) := by
  refine ⟨?_, rfl, ?_, rfl⟩
  · intro f
    rcases hp : pollF f with ⟨f2, r⟩
    cases r with
    | NotReady =>
      left
      simp [ResponseFuture.poll, unary_future.poll_and_convert_response, hp]
    | Ready res =>
      cases hc : conv res with
      | ok t =>
        right; left
        exact ⟨t, by
          simp [ResponseFuture.poll, unary_future.poll_and_convert_response, hp, hc]⟩
      | error e =>
        right; right
        exact ⟨e, by
          simp [ResponseFuture.poll, unary_future.poll_and_convert_response, hp, hc]⟩
    | Err e =>
      right; right
      exact ⟨convert_error e, by
        simp [ResponseFuture.poll, unary_future.poll_and_convert_response, hp]⟩
  · intro g
    rcases hp : pollG g with ⟨g2, r⟩
    cases r with
    | NotReady =>
      left
      simp [ResponseStreamFuture.poll, stream_future.poll_and_convert_response, hp]
    | Ready res =>
      right; left
      exact ⟨{ inner := res }, by
        simp [ResponseStreamFuture.poll, stream_future.poll_and_convert_response, hp]⟩
    | Err e =>
      right; right
      exact ⟨convert_error e, by
        simp [ResponseStreamFuture.poll, stream_future.poll_and_convert_response, hp]⟩

/-- Witness for C1 at a concrete adapter: polling the finished unary
adapter panics. -/
theorem c1_witness :
    ResponseFuture.poll exampleFailedCall
        (GenBlock.convert_response singletonDeserialize)
        unary_future.State.Finished =
      (unary_future.State.Finished, PollRes.Panicked) :=
  (c1_adapters_transition_once exampleFailedCall
    (GenBlock.convert_response singletonDeserialize) examplePollG).2.1

/-- Claim C2: when `pull_blocks_to_tip` builds its request (that is, every
identifier serializes successfully), the request's `from` field has exactly
one byte sequence per element of the input list, in the same order, and the
i-th byte sequence is exactly the serialization of the i-th identifier. -/
theorem c2_pull_blocks_to_tip_preserves_ids {τ ε : Type} (sz : SerializeImpl τ ε)
    (L : List τ) (req : PullBlocksToTipRequest) (i : Nat) (x : τ) (b : List Nat)
    (h : pull_blocks_to_tip sz L = some req)
    (hx : L[i]? = some x) (hb : req.«from»[i]? = some b) :
    req.«from».length = L.length ∧ sz.serialize x = Except.ok b := by
  simp only [pull_blocks_to_tip] at h
  cases hv : serialize_to_vec sz L with
  | none => rw [hv] at h; simp at h
  | some v =>
    rw [hv] at h
    simp only [Option.some.injEq] at h
    subst h
    obtain ⟨hlen, hidx⟩ := serialize_to_vec_spec sz L v hv
    exact ⟨hlen, hidx i x b hx hb⟩

/-- Witness for C2: serializing the identifiers 1 and 2 gives a request
holding exactly their byte sequences in order. -/
theorem c2_witness :
    (PullBlocksToTipRequest.mk [[1], [2]]).«from».length = ([1, 2] : List Nat).length ∧
    natSerialize.serialize 1 = Except.ok [1] :=
  c2_pull_blocks_to_tip_preserves_ids natSerialize [1, 2]
    (PullBlocksToTipRequest.mk [[1], [2]]) 0 1 [1] (by decide) (by decide) (by decide)

/-- Claim C9: the request construction of `pull_blocks_to_tip` aborts (the
`unwrap` in `serialize_to_vec` panics) exactly when serializing some
supplied identifier fails; it is panic-free precisely under the
precondition that every identifier serializes successfully, and a
serialization failure never surfaces as a returned domain error. -/
theorem c9_pull_blocks_to_tip_panics_iff {τ ε : Type} (sz : SerializeImpl τ ε)
    (L : List τ) :
    pull_blocks_to_tip sz L = none ↔
      ∃ x ∈ L, ∃ e, sz.serialize x = Except.error e := by
  rw [← serialize_to_vec_none_iff sz L]
  simp only [pull_blocks_to_tip]
  cases hv : serialize_to_vec sz L with
  | none => simp
  | some v => simp

/-- Witness for C9: with an always-failing serializer, the call aborts. -/
theorem c9_witness : pull_blocks_to_tip failSerialize [5] = none :=
  (c9_pull_blocks_to_tip_panics_iff failSerialize [5]).mpr
    ⟨5, by decide, (), rfl⟩

/-- Claim C3: converting a tip response yields the pair of the id
deserialized from the payload's identifier bytes and the date parsed from
its textual date field; if either sub-step fails the result is a
Format-kind domain error carrying that sub-step's cause — never a panic
(the conversion is a total function into `Except`), never a default value,
and never a partial pair (a returned pair's components always come from the
two successful sub-steps). -/
theorem c3_tip_response_conversion {ι δ χ : Type} (dI : DeserializeImpl ι χ)
    (dD : FromStrImpl δ χ) (r : TipResponse) :
    (∀ i d, dI.deserialize r.id = Except.ok i →
        dD.from_str r.blockdate = Except.ok d →
        TipResponse.convert_response dI dD r = Except.ok (i, d)) ∧
    (∀ e, dI.deserialize r.id = Except.error e →
        TipResponse.convert_response dI dD r =
          Except.error (CoreError.new ErrorKind.Format e)) ∧
    (∀ i e, dI.deserialize r.id = Except.ok i →
        dD.from_str r.blockdate = Except.error e →
        TipResponse.convert_response dI dD r =
          Except.error (CoreError.new ErrorKind.Format e)) ∧
    (∀ i d, TipResponse.convert_response dI dD r = Except.ok (i, d) →
        dI.deserialize r.id = Except.ok i ∧
        dD.from_str r.blockdate = Except.ok d) ∧
    (∀ err, TipResponse.convert_response dI dD r = Except.error err →
        err.kind = ErrorKind.Format) := by
  refine ⟨?_, ?_, ?_, ?_, ?_⟩
  · intro i d hi hd
    simp [TipResponse.convert_response, deserialize_bytes, parse_str, hi, hd]
  · intro e he
    simp [TipResponse.convert_response, deserialize_bytes, he]
  · intro i e hi he
    simp [TipResponse.convert_response, deserialize_bytes, parse_str, hi, he]
  · intro i d h
    cases hi : dI.deserialize r.id with
    | error e =>
      simp [TipResponse.convert_response, deserialize_bytes, hi] at h
    | ok i2 =>
      cases hd : dD.from_str r.blockdate with
      | error e =>
        simp [TipResponse.convert_response, deserialize_bytes, parse_str, hi, hd] at h
      | ok d2 =>
        simp [TipResponse.convert_response, deserialize_bytes, parse_str, hi, hd] at h
        exact ⟨by rw [h.1], by rw [h.2]⟩
  · intro err h
    cases hi : dI.deserialize r.id with
    | error e =>
      simp [TipResponse.convert_response, deserialize_bytes, hi] at h
      rw [← h]
      rfl
    | ok i2 =>
      cases hd : dD.from_str r.blockdate with
      | error e =>
        simp [TipResponse.convert_response, deserialize_bytes, parse_str, hi, hd] at h
        rw [← h]
        rfl
      | ok d2 =>
        simp [TipResponse.convert_response, deserialize_bytes, parse_str, hi, hd] at h

/-- Witness for C3: the spec's scenario, id bytes `[0xAA, 0xBB]` and date
string `2020-01-01`, converts to the pair (0xAABB, "2020-01-01"). -/
theorem c3_witness :
    TipResponse.convert_response natPairDeserialize nonEmptyFromStr
        (TipResponse.mk [170, 187] "2020-01-01") =
      Except.ok (43707, "2020-01-01") :=
  (c3_tip_response_conversion natPairDeserialize nonEmptyFromStr
      (TipResponse.mk [170, 187] "2020-01-01")).1
    43707 "2020-01-01" rfl rfl

/-- Claim C4: each poll of the item stream has exactly one of five
outcomes, matching the wrapped transport stream's poll: not-ready;
end-of-sequence; the converted domain value when the item's content
deserializes; a Format-kind domain error when it does not; an Rpc-kind
domain error when the transport errors. The adapter consumes exactly one
transport poll per poll (the stream state advances in lock-step), and over
any number of polls the yielded items are exactly the successfully
converted transport items in delivery order — no reordering. -/
theorem c4_item_stream_poll_outcomes {σs τ χ : Type}
    (pollS : σs → σs × StreamPoll GenBlock χ) (d : DeserializeImpl τ χ)
    (rs : ResponseStream σs) :
    (∀ s2, pollS rs.inner = (s2, StreamPoll.NotReady) →
      ResponseStream.poll pollS (GenBlock.convert_response d) rs =
        ({ inner := s2 }, StreamPollRes.NotReady)) ∧
    (∀ s2, pollS rs.inner = (s2, StreamPoll.EndOfStream) →
      ResponseStream.poll pollS (GenBlock.convert_response d) rs =
        ({ inner := s2 }, StreamPollRes.EndOfStream)) ∧
    (∀ s2 blk t, pollS rs.inner = (s2, StreamPoll.Ready blk) →
        d.deserialize blk.content = Except.ok t →
      ResponseStream.poll pollS (GenBlock.convert_response d) rs =
        ({ inner := s2 }, StreamPollRes.Ready t)) ∧
    (∀ s2 blk e, pollS rs.inner = (s2, StreamPoll.Ready blk) →
        d.deserialize blk.content = Except.error e →
      ResponseStream.poll pollS (GenBlock.convert_response d) rs =
        ({ inner := s2 }, StreamPollRes.Err (CoreError.new ErrorKind.Format e))) ∧
    (∀ s2 e, pollS rs.inner = (s2, StreamPoll.Err e) →
      ResponseStream.poll pollS (GenBlock.convert_response d) rs =
        ({ inner := s2 }, StreamPollRes.Err (CoreError.new ErrorKind.Rpc e))) ∧
    (ResponseStream.poll pollS (GenBlock.convert_response d) rs).1.inner =
      (pollS rs.inner).1 ∧
    (∀ n, runStream pollS (GenBlock.convert_response d) n rs =
      List.filterMap (fun blk => (GenBlock.convert_response d blk).toOption)
        (runUnderlying pollS n rs.inner)) := by
  refine ⟨?_, ?_, ?_, ?_, ?_, ?_, ?_⟩
  · intro s2 hp
    simp [ResponseStream.poll, poll_and_convert_item, hp]
  · intro s2 hp
    simp [ResponseStream.poll, poll_and_convert_item, hp]
  · intro s2 blk t hp hd
    simp [ResponseStream.poll, poll_and_convert_item, hp,
      GenBlock.convert_response, deserialize_bytes, hd]
  · intro s2 blk e hp hd
    simp [ResponseStream.poll, poll_and_convert_item, hp,
      GenBlock.convert_response, deserialize_bytes, hd]
  · intro s2 e hp
    simp [ResponseStream.poll, poll_and_convert_item, hp, convert_error]
  · rcases hp : pollS rs.inner with ⟨s2, r⟩
    cases r with
    | NotReady => simp [ResponseStream.poll, poll_and_convert_item, hp]
    | EndOfStream => simp [ResponseStream.poll, poll_and_convert_item, hp]
    | Ready blk =>
      cases hc : GenBlock.convert_response d blk with
      | ok t => simp [ResponseStream.poll, poll_and_convert_item, hp, hc]
      | error e => simp [ResponseStream.poll, poll_and_convert_item, hp, hc]
    | Err e => simp [ResponseStream.poll, poll_and_convert_item, hp]
  · intro n
    exact runStream_eq_filterMap pollS (GenBlock.convert_response d) n rs

/-- Witness for C4: on a concrete stream whose second poll yields the
well-formed block `[9]`, the adapter yields the converted value 9. -/
theorem c4_witness :
    ResponseStream.poll exampleStream
        (GenBlock.convert_response singletonDeserialize) (ResponseStream.mk 1) =
      (ResponseStream.mk 2, StreamPollRes.Ready 9) :=
  (c4_item_stream_poll_outcomes exampleStream singletonDeserialize
      (ResponseStream.mk 1)).2.2.1 2 (GenBlock.mk [9]) 9 (by decide) rfl

/-- Counterexample to claim C5 as stated: on a concrete transport stream,
the adapter yields a Format-kind conversion error on the first poll, yet
the very next poll of that same stream yields another item (9) — the
adapter does not terminate the stream itself. -/
theorem c5_counterexample :
    ResponseStream.poll exampleStream
        (GenBlock.convert_response singletonDeserialize) (ResponseStream.mk 0) =
      (ResponseStream.mk 1, StreamPollRes.Err (CoreError.new ErrorKind.Format ())) ∧
    ResponseStream.poll exampleStream
        (GenBlock.convert_response singletonDeserialize) (ResponseStream.mk 1) =
      (ResponseStream.mk 2, StreamPollRes.Ready 9) := by
  exact ⟨rfl, rfl⟩

/-- Claim C5 amended: after the item stream has yielded a Format-kind
conversion error, the adapter itself keeps no termination state — a
subsequent poll is forwarded to the wrapped transport stream, and if that
stream yields an item whose conversion succeeds, the adapter yields that
item; termination after an error is the polling contract's obligation on
the caller, not enforced by this layer. -/
theorem c5_stream_error_not_terminal {σs ρ τ χ : Type}
    (pollS : σs → σs × StreamPoll ρ χ) (conv : ρ → Except (CoreError χ) τ)
    (rs rs2 : ResponseStream σs) (err : CoreError χ) (s3 : σs) (item : ρ) (t : τ)
    (_h1 : ResponseStream.poll pollS conv rs = (rs2, StreamPollRes.Err err))
    (h2 : pollS rs2.inner = (s3, StreamPoll.Ready item))
    (h3 : conv item = Except.ok t) :
    ResponseStream.poll pollS conv rs2 = ({ inner := s3 }, StreamPollRes.Ready t) := by
  simp [ResponseStream.poll, poll_and_convert_item, h2, h3]

/-- Witness for the amended C5, at the counterexample's concrete stream:
after the Format error the next poll yields the item 9. -/
theorem c5_witness :
    ResponseStream.poll exampleStream
        (GenBlock.convert_response singletonDeserialize) (ResponseStream.mk 1) =
      ({ inner := 2 }, StreamPollRes.Ready 9) :=
  c5_stream_error_not_terminal exampleStream
    (GenBlock.convert_response singletonDeserialize)
    (ResponseStream.mk 0) (ResponseStream.mk 1)
    (CoreError.new ErrorKind.Format ()) 2 (GenBlock.mk [9]) 9 rfl rfl rfl

/-- Claim C6: during an established call, a transport-level error surfaced
by the unary adapter, the stream-open adapter, or the item stream becomes a
domain error of kind `Rpc` carrying the underlying cause; a
payload-deserialization failure (bytes or date string) becomes a domain
error of kind `Format` carrying the underlying cause; none is swallowed or
mapped to another kind. -/
theorem c6_error_mapping {σ σ2 σs ρ ρ2 τ τ2 α β χ : Type}
    (pollF : σ → σ × Poll ρ χ) (conv : ρ → Except (CoreError χ) τ)
    (pollG : σ2 → σ2 × Poll σs χ)
    (pollS : σs → σs × StreamPoll ρ2 χ) (conv2 : ρ2 → Except (CoreError χ) τ2)
    (dd : DeserializeImpl α χ) (pp : FromStrImpl β χ) :
    (∀ f f2 e, pollF f = (f2, Poll.Err e) →
      ResponseFuture.poll pollF conv (unary_future.State.Pending f) =
        (unary_future.State.Finished, PollRes.Err (CoreError.new ErrorKind.Rpc e))) ∧
    (∀ g g2 e, pollG g = (g2, Poll.Err e) →
      ResponseStreamFuture.poll pollG (stream_future.State.Pending g) =
        (stream_future.State.Finished, PollRes.Err (CoreError.new ErrorKind.Rpc e))) ∧
    (∀ s s2 e, pollS s = (s2, StreamPoll.Err e) →
      poll_and_convert_item pollS conv2 s =
        (s2, StreamPoll.Err (CoreError.new ErrorKind.Rpc e))) ∧
    (∀ buf e, dd.deserialize buf = Except.error e →
      deserialize_bytes dd buf = Except.error (CoreError.new ErrorKind.Format e)) ∧
    (∀ s e, pp.from_str s = Except.error e →
      parse_str pp s = Except.error (CoreError.new ErrorKind.Format e)) ∧
    (∀ e : χ, convert_error e = CoreError.new ErrorKind.Rpc e) := by
  refine ⟨?_, ?_, ?_, ?_, ?_, fun _ => rfl⟩
  · intro f f2 e hp
    simp [ResponseFuture.poll, unary_future.poll_and_convert_response, hp,
      convert_error]
  · intro g g2 e hp
    simp [ResponseStreamFuture.poll, stream_future.poll_and_convert_response, hp,
      convert_error]
  · intro s s2 e hp
    simp [poll_and_convert_item, hp, convert_error]
  · intro buf e hd
    simp [deserialize_bytes, hd]
  · intro s e hd
    simp [parse_str, hd]

/-- Witness for C6: a concrete failing byte deserialization surfaces as a
Format-kind domain error carrying its cause. -/
theorem c6_witness :
    deserialize_bytes singletonDeserialize [] =
      Except.error (CoreError.new ErrorKind.Format ()) :=
  (c6_error_mapping exampleFailedCall
      (GenBlock.convert_response singletonDeserialize) examplePollG
      exampleStream (GenBlock.convert_response singletonDeserialize)
      singletonDeserialize nonEmptyFromStr).2.2.2.1 [] () rfl

/-- Claim C7: calling `tip_header` never returns a value — neither a future
to poll for a header nor a domain error — it panics unconditionally (the
body is `unimplemented!`). -/
theorem c7_tip_header_panics (σ : Type) :
    tip_header σ = CallResult.Panicked ∧
    ∀ fut : unary_future.State σ, tip_header σ ≠ CallResult.Ret fut :=
  ⟨rfl, fun _ h => CallResult.noConfusion h⟩

/-- Claim C8: one poll of the connect future either stays not-ready, or
resolves to a ready client wrapping the new connection, or fails with an
error of the connect-only taxonomy (`Error::Connect` wrapping the
underlying transport-connect failure); its error type has no Rpc or Format
variant, every surfaced error is a `Connect` wrap, and a client and an
error are mutually exclusive outcomes of the one poll result. -/
theorem c8_connect_outcomes {σ κ γ : Type} (pollM : σ → σ × Poll κ γ) (s : σ) :
    (∀ s2, pollM s = (s2, Poll.NotReady) →
        Client.connect_poll pollM s = (s2, Poll.NotReady)) ∧
    (∀ s2 conn, pollM s = (s2, Poll.Ready conn) →
        Client.connect_poll pollM s = (s2, Poll.Ready (Client.mk (Node.new conn)))) ∧
    (∀ s2 e, pollM s = (s2, Poll.Err e) →
        Client.connect_poll pollM s = (s2, Poll.Err (Error.Connect e))) ∧
    (∀ s2 err, Client.connect_poll pollM s = (s2, Poll.Err err) →
        ∃ e, err = Error.Connect e ∧ pollM s = (s2, Poll.Err e)) := by
  refine ⟨?_, ?_, ?_, ?_⟩
  · intro s2 hp
    simp [Client.connect_poll, hp]
  · intro s2 conn hp
    simp [Client.connect_poll, hp]
  · intro s2 e hp
    simp [Client.connect_poll, hp]
  · intro s2 err h
    rcases hp : pollM s with ⟨s3, r⟩
    cases r with
    | NotReady => simp [Client.connect_poll, hp] at h
    | Ready conn => simp [Client.connect_poll, hp] at h
    | Err e =>
      simp [Client.connect_poll, hp] at h
      obtain ⟨hs, he⟩ := h
      subst hs
      exact ⟨e, he.symm, rfl⟩


/-- Witness for C8: a concrete immediately-successful connect resolves to
the ready client around connection handle 42. -/
theorem c8_witness :
    Client.connect_poll exampleConnect 0 = (1, Poll.Ready (Client.mk (Node.new 42))) :=
  (c8_connect_outcomes exampleConnect 0).2.1 1 42 rfl

/-- Claim C10: the item stream adapter keeps no completion state of its own
— polling it never panics at this layer (every outcome is one of the four
stream results, never `Panicked`, from any state, including after
end-of-sequence or an error), and every poll forwards directly to the
wrapped transport stream: the adapter's whole state after a poll is the
underlying stream's advanced state. -/
theorem c10_item_stream_stateless {σs ρ τ χ : Type}
    (pollS : σs → σs × StreamPoll ρ χ) (conv : ρ → Except (CoreError χ) τ) :
    (∀ rs : ResponseStream σs,
      (ResponseStream.poll pollS conv rs).2 = StreamPollRes.NotReady ∨
      (ResponseStream.poll pollS conv rs).2 = StreamPollRes.EndOfStream ∨
      (∃ t, (ResponseStream.poll pollS conv rs).2 = StreamPollRes.Ready t) ∨
      (∃ e, (ResponseStream.poll pollS conv rs).2 = StreamPollRes.Err e)) ∧
    (∀ rs : ResponseStream σs,
      (ResponseStream.poll pollS conv rs).2 ≠ StreamPollRes.Panicked) ∧
    (∀ rs : ResponseStream σs,
      (ResponseStream.poll pollS conv rs).1 = ResponseStream.mk (pollS rs.inner).1) := by
  have hcases : ∀ rs : ResponseStream σs,
      (ResponseStream.poll pollS conv rs).2 = StreamPollRes.NotReady ∨
      (ResponseStream.poll pollS conv rs).2 = StreamPollRes.EndOfStream ∨
      (∃ t, (ResponseStream.poll pollS conv rs).2 = StreamPollRes.Ready t) ∨
      (∃ e, (ResponseStream.poll pollS conv rs).2 = StreamPollRes.Err e) := by
    intro rs
    rcases hp : pollS rs.inner with ⟨s2, r⟩
    cases r with
    | NotReady =>
      left
      simp [ResponseStream.poll, poll_and_convert_item, hp]
    | EndOfStream =>
      right; left
      simp [ResponseStream.poll, poll_and_convert_item, hp]
    | Ready item =>
      cases hc : conv item with
      | ok t =>
        right; right; left
        exact ⟨t, by simp [ResponseStream.poll, poll_and_convert_item, hp, hc]⟩
      | error e =>
        right; right; right
        exact ⟨e, by simp [ResponseStream.poll, poll_and_convert_item, hp, hc]⟩
    | Err e =>
      right; right; right
      exact ⟨convert_error e, by simp [ResponseStream.poll, poll_and_convert_item, hp]⟩
  refine ⟨hcases, ?_, ?_⟩
  · intro rs hpan
    rcases hcases rs with h | h | ⟨t, h⟩ | ⟨e, h⟩ <;> rw [hpan] at h <;> cases h
  · intro rs
    rcases hp : pollS rs.inner with ⟨s2, r⟩
    cases r with
    | NotReady => simp [ResponseStream.poll, poll_and_convert_item, hp]
    | EndOfStream => simp [ResponseStream.poll, poll_and_convert_item, hp]
    | Ready item =>
      cases hc : conv item with
      | ok t => simp [ResponseStream.poll, poll_and_convert_item, hp, hc]
      | error e => simp [ResponseStream.poll, poll_and_convert_item, hp, hc]
    | Err e => simp [ResponseStream.poll, poll_and_convert_item, hp]

/-- Witness for C10: on the concrete stream, a poll taken after the stream
already produced an error still forwards to the transport stream and
advances its state in lock-step. -/
theorem c10_witness :
    (ResponseStream.poll exampleStream
        (GenBlock.convert_response singletonDeserialize) (ResponseStream.mk 3)).1 =
      ResponseStream.mk 4 :=
  (c10_item_stream_stateless exampleStream
      (GenBlock.convert_response singletonDeserialize)).2.2 (ResponseStream.mk 3)
